import Mathlib

/-!
Shallow embedding of the pyocle response pipeline
(pyocle/serialization.py, pyocle/form.py, pyocle/response.py,
pyocle/error.py, pyocle/service/core.py).

Python values appearing in request bodies, schemas and response data are
modelled by the inductive type `Jv`.  Machine behavior that the library
delegates to collaborators (the jsonpickle JSON codec, pydantic's integer
coercion) is modelled on the fragment the library exercises.
-/

/-- JSON-style value universe used for request data, schema descriptions
and response payloads. -/
inductive Jv where
  | none
  | bool (b : Bool)
  | int (n : Int)
  | str (s : String)
  | arr (xs : List Jv)
  | obj (fields : List (String × Jv))

/-! ## pyocle/serialization.py -/

/-- ASCII letter test, the character class `[a-zA-Z]` of the regex in
`snake_case_to_camel_case`. -/
def isAsciiLetter (c : Char) : Bool :=
  ('a' ≤ c && c ≤ 'z') || ('A' ≤ c && c ≤ 'Z')

/-- Character-list semantics of `re.sub(r'(.*?)_([a-zA-Z])', convert, value)`
from `snake_case_to_camel_case`: scanning left to right, each underscore that
is immediately followed by an ASCII letter is deleted and that letter is
upper-cased; any other character (including an underscore not followed by a
letter) is copied through, and scanning resumes after the replaced letter. -/
def camel : List Char → List Char
  | [] => []
  | c :: rest =>
    if c = '_' then
      match rest with
      | [] => ['_']
      | d :: rest2 =>
        if isAsciiLetter d then d.toUpper :: camel rest2 else '_' :: camel (d :: rest2)
    else c :: camel rest

/-- `snake_case_to_camel_case` from pyocle/serialization.py. -/
def snake_case_to_camel_case (s : String) : String :=
  String.mk (camel s.data)

/-- `is_snake_case` from `CamelCaseAttributesMixin.__getstate__`: simply
checks for an underscore character in the string. -/
def is_snake_case (s : String) : Bool :=
  s.data.contains '_'

/-- `to_camel_case` from `CamelCaseAttributesMixin.__getstate__`. -/
def to_camel_case (s : String) : String :=
  if is_snake_case s then snake_case_to_camel_case s else s

/-- Python dict insertion: assigning key `k` to value `v` in the mapping `m`
overwrites the value in place when `k` is already present (keeping the key's
first-insertion position) and appends `(k, v)` otherwise. -/
def dict_insert (m : List (String × Jv)) (k : String) (v : Jv) : List (String × Jv) :=
  if k ∈ m.map Prod.fst then
    m.map (fun p => if p.1 = k then (k, v) else p)
  else
    m ++ [(k, v)]

/-- `CamelCaseAttributesMixin.__getstate__`: the dict comprehension
`to_camel_case(key): value for key, value in self.__dict__.items()`,
with Python dict semantics for colliding transformed keys. -/
def getstate (fields : List (String × Jv)) : List (String × Jv) :=
  fields.foldl (fun acc p => dict_insert acc (to_camel_case p.1) p.2) []

/-- Key list of a mapping. -/
def keys (m : List (String × Jv)) : List String :=
  m.map Prod.fst

/-- Analysis predicate (not from the source): every underscore in the
character list is immediately followed by an ASCII letter, so the regex of
`snake_case_to_camel_case` consumes every underscore. -/
def sepOk : List Char → Bool
  | [] => true
  | c :: rest =>
    if c = '_' then
      match rest with
      | [] => false
      | d :: rest2 => isAsciiLetter d && sepOk rest2
    else sepOk rest

/-! ## JSON codec model (collaborator of pyocle/form.py)

`jsonpickle.loads` is an external collaborator; pyocle only relies on it to
decode a JSON text into a value or raise `ValueError`/`TypeError` on
malformed input.  The decoder is modelled here as a fuel-bounded recursive
descent over null/true/false, integer literals, escape-free strings, arrays
and objects; floats and string escapes are outside the fragment the claims
exercise. -/

/-- JSON whitespace test. -/
def isJsonWs (c : Char) : Bool :=
  c = ' ' || c = '\t' || c = '\n' || c = '\r'

/-- Skip leading JSON whitespace. -/
def skipWs : List Char → List Char
  | [] => []
  | c :: rest => if isJsonWs c then skipWs rest else c :: rest

/-- ASCII digit test. -/
def isDigitCh (c : Char) : Bool :=
  '0' ≤ c && c ≤ '9'

/-- Numeric value of a digit list. -/
def digitsVal (ds : List Char) : Nat :=
  ds.foldl (fun a c => a * 10 + (c.toNat - 48)) 0

/-- Read the remainder of a JSON string literal after the opening quote;
escape sequences are outside the modelled fragment and rejected. -/
def readStr : List Char → Except Unit (String × List Char)
  | [] => Except.error ()
  | c :: rest =>
    if c = '"' then Except.ok ("", rest)
    else if c = '\\' then Except.error ()
    else (readStr rest).map (fun sr => (String.mk (c :: sr.1.data), sr.2))

/-- Mode of the decoder: a value, the members of an object, or the items of
an array. -/
inductive PMode where
  | val
  | members (acc : List (String × Jv))
  | items (acc : List Jv)

/-- One fuel-bounded decoding step. -/
def parseStep : Nat → PMode → List Char → Except Unit (Jv × List Char)
  | 0, _, _ => Except.error ()
  | Nat.succ f, PMode.val, l =>
    match skipWs l with
    | [] => Except.error ()
    | c :: rest =>
      if c = 'n' then
        match rest with
        | 'u' :: 'l' :: 'l' :: r => Except.ok (Jv.none, r)
        | _ => Except.error ()
      else if c = 't' then
        match rest with
        | 'r' :: 'u' :: 'e' :: r => Except.ok (Jv.bool true, r)
        | _ => Except.error ()
      else if c = 'f' then
        match rest with
        | 'a' :: 'l' :: 's' :: 'e' :: r => Except.ok (Jv.bool false, r)
        | _ => Except.error ()
      else if c = '"' then
        (readStr rest).map (fun sr => (Jv.str sr.1, sr.2))
      else if c = '-' then
        match List.span isDigitCh rest with
        | ([], _) => Except.error ()
        | (ds, r) => Except.ok (Jv.int (-(digitsVal ds : Int)), r)
      else if isDigitCh c then
        match List.span isDigitCh (c :: rest) with
        | (ds, r) => Except.ok (Jv.int (digitsVal ds : Int), r)
      else if c = '{' then
        match skipWs rest with
        | '}' :: r => Except.ok (Jv.obj [], r)
        | r2 => parseStep f (PMode.members []) r2
      else if c = '[' then
        match skipWs rest with
        | ']' :: r => Except.ok (Jv.arr [], r)
        | r2 => parseStep f (PMode.items []) r2
      else Except.error ()
  | Nat.succ f, PMode.members acc, l =>
    match skipWs l with
    | '"' :: rest =>
      match readStr rest with
      | Except.error _ => Except.error ()
      | Except.ok (k, r1) =>
        match skipWs r1 with
        | ':' :: r2 =>
          match parseStep f PMode.val r2 with
          | Except.error _ => Except.error ()
          | Except.ok (v, r3) =>
            match skipWs r3 with
            | ',' :: r4 => parseStep f (PMode.members (acc ++ [(k, v)])) r4
            | '}' :: r4 => Except.ok (Jv.obj (acc ++ [(k, v)]), r4)
            | _ => Except.error ()
        | _ => Except.error ()
    | _ => Except.error ()
  | Nat.succ f, PMode.items acc, l =>
    match parseStep f PMode.val l with
    | Except.error _ => Except.error ()
    | Except.ok (v, r1) =>
      match skipWs r1 with
      | ',' :: r2 => parseStep f (PMode.items (acc ++ [v])) r2
      | ']' :: r2 => Except.ok (Jv.arr (acc ++ [v]), r2)
      | _ => Except.error ()

/-- Model of `jsonpickle.loads`: decode the whole text to a value, failing
(as the library does with `ValueError`) on empty or malformed input. -/
def jsonLoads (s : String) : Except Unit Jv :=
  match parseStep (s.length + 2) PMode.val s.data with
  | Except.ok (v, rest) => if skipWs rest = [] then Except.ok v else Except.error ()
  | Except.error _ => Except.error ()

/-! ## pyocle/form.py -/

/-- A pydantic field error: the dotted location path and the message. -/
structure PydErr where
  loc : List String
  msg : String
deriving DecidableEq

/-- `FormValidationError` from pyocle/form.py: errors, message and schemas,
as stored by its constructor. -/
structure FormValidationError where
  errors : List PydErr
  message : String
  schemas : Option (List (String × Jv))

/-- Constructor of `FormValidationError` (pyocle/form.py): `errors or []`
and the default message `Form was not validated successfully`; `schemas`
stays `None` when not supplied. -/
def mkFormValidationError (errors : Option (List PydErr)) (message : Option String)
    (schemas : Option (List (String × Jv))) : FormValidationError :=
  { errors := errors.getD []
    message := message.getD "Form was not validated successfully"
    schemas := schemas }

/-- A pydantic model instance as pyocle observes it: the field mapping
(`.dict()`) and the names of the fields explicitly supplied by the caller
(`__fields_set__`, used by `.dict(exclude_unset=True)`). -/
structure ModelInst where
  fields : List (String × Jv)
  fieldsSet : List String

/-- A pydantic model class as pyocle observes it: its JSON-Schema
description (`.schema()`) and its validation of a keyword mapping, which
returns an instance or the list of field errors (`ValidationError.errors()`). -/
structure PydModel where
  schemaDesc : Jv
  validate : List (String × Jv) → Except (List PydErr) ModelInst

/-- A Python class passed as `form_type`: either a pydantic model subclass
(`pydantic = some model`) or any other class (`pydantic = none`), which
`resolve_form` rejects with `ValueError`. -/
structure FormClass where
  name : String
  pydantic : Option PydModel

/-- Raw `data` argument of `resolve_form`: `None`, a JSON text, a byte
payload, or an already-decoded mapping. -/
inductive Rd where
  | none
  | str (s : String)
  | bytes (s : String)
  | dict (fields : List (String × Jv))

/-- `ErrorDetail` from pyocle/response.py: a field error description and
its dotted location. -/
structure ErrorDetail where
  description : String
  location : String
deriving DecidableEq

/-- `ResourceNotFoundError` from pyocle/service/core.py (pyocle/error.py
declares an identically-shaped class of its own). -/
structure ResourceNotFoundError where
  identifier : String
  message : String

/-- Constructor of `ResourceNotFoundError`: the default message is
`Resource with id {identifier} could not be found`. -/
def mkResourceNotFoundError (identifier : String) (message : Option String) :
    ResourceNotFoundError :=
  ⟨identifier, message.getD ("Resource with id " ++ identifier ++ " could not be found")⟩

/-- `FormValidationError` from pyocle/error.py: it carries `ErrorDetail`
values directly and a single `schema`, unlike the class of the same name in
pyocle/form.py. -/
structure FormValidationErrorE where
  error_details : List ErrorDetail
  message : String
  schema : Option Jv

/-- Constructor of pyocle/error.py's `FormValidationError`: `error_details
or []` and the same default message as the form.py class. -/
def mkFormValidationErrorE (error_details : Option (List ErrorDetail))
    (message : Option String) (schema : Option Jv) : FormValidationErrorE :=
  { error_details := error_details.getD []
    message := message.getD "Form was not validated successfully"
    schema := schema }

/-- The exceptions raised and caught across pyocle.  The two wrapper
implementations catch different classes: pyocle/response.py catches
`pyocle.service.ResourceNotFoundError` and `pyocle.form.FormValidationError`,
while pyocle/error.py catches its own `ResourceNotFoundError` and
`FormValidationError` classes, which are unrelated types in Python. -/
inductive PyExn where
  | resourceNotFound (e : ResourceNotFoundError)
  | formValidation (fve : FormValidationError)
  | resourceNotFoundE (e : ResourceNotFoundError)
  | formValidationE (fve : FormValidationErrorE)
  | valueError (msg : String)
  | typeError (msg : String)
  | other (msg : String)

/-- `_resolve_schema_name` from pyocle/form.py: model names ending in
`QueryParameters` map to the query-parameter bucket, all others to the
request-body bucket.  `str.endswith` is modelled as a list suffix test. -/
def resolve_schema_name (modelName : String) : String :=
  if List.isSuffixOf "QueryParameters".data modelName.data then "queryParameters"
  else "requestBody"

/-- The `FormValidationError` built by `resolve_form` when the incoming
text is not valid JSON or the decoded value is not a mapping (the
`except (TypeError, ValueError)` branch). -/
def parse_failure_fve (name : String) (pm : PydModel) : FormValidationError :=
  mkFormValidationError
    (some [⟨["requestBody"],
           "Request body either either did not exist or was not valid JSON."⟩])
    (some "Form could not be validated due to given json not existing or being valid")
    (some [(resolve_schema_name name, pm.schemaDesc)])

/-- The `FormValidationError` built by `resolve_form` when pydantic
validation fails (the `except ValidationError` branch); no message is
supplied, so the constructor default applies. -/
def validation_fve (name : String) (pm : PydModel) (errs : List PydErr) :
    FormValidationError :=
  mkFormValidationError (some errs) Option.none
    (some [(resolve_schema_name name, pm.schemaDesc)])

/-- `resolve_form` from pyocle/form.py.  The guard raises `ValueError` for a
non-pydantic `form_type` before any decoding.  String and byte payloads go
through the JSON codec; a decode failure, or a decoded value that is not a
mapping (so that `form_type(**data)` raises `TypeError`), lands in the
`except (TypeError, ValueError)` branch.  A mapping is validated by the
model; a pydantic `ValidationError` (a `ValueError` subclass, caught first)
lands in the `except ValidationError` branch. -/
def resolve_form (data : Rd) (form_type : FormClass) : Except PyExn ModelInst :=
  match form_type.pydantic with
  | Option.none =>
    Except.error (PyExn.valueError ("Unsupported form type: " ++ form_type.name ++
      ". Type must be subclass of pydantic.BaseModel"))
  | Option.some pm =>
    let decoded : Except Unit Jv :=
      match data with
      | Rd.str s => jsonLoads s
      | Rd.bytes s => jsonLoads s
      | Rd.none => Except.ok Jv.none
      | Rd.dict d => Except.ok (Jv.obj d)
    match decoded with
    | Except.error _ =>
      Except.error (PyExn.formValidation (parse_failure_fve form_type.name pm))
    | Except.ok v =>
      match v with
      | Jv.obj fields =>
        match pm.validate fields with
        | Except.ok inst => Except.ok inst
        | Except.error errs =>
          Except.error (PyExn.formValidation (validation_fve form_type.name pm errs))
      | _ => Except.error (PyExn.formValidation (parse_failure_fve form_type.name pm))

/-- `resolve_query_params` from pyocle/form.py: `{}` when `params` is
`None`, otherwise `resolve_form(params, model).dict(exclude_unset=True)`. -/
def resolve_query_params (params : Option (List (String × Jv))) (model : FormClass) :
    Except PyExn (List (String × Jv)) :=
  match params with
  | Option.none => Except.ok []
  | Option.some p =>
    (resolve_form (Rd.dict p) model).map
      (fun inst => inst.fields.filter (fun q => inst.fieldsSet.contains q.1))

/-! ## PaginationQueryParameters (pyocle/form.py lines 21-30)

`page: conint(ge=0) = 0` and `limit: conint(ge=1, le=1000) = 100`.
pydantic's integer coercion accepts ints, bools and integer-literal
strings; other values produce a type error for the field. -/

/-- Integer representation of an optional sign and digit string, the
fragment of Python `int(str)` coercion that pydantic applies. -/
def strToInt (s : String) : Option Int :=
  match s.data with
  | [] => Option.none
  | '-' :: rest =>
    if rest ≠ [] ∧ rest.all isDigitCh then Option.some (-(digitsVal rest : Int))
    else Option.none
  | l =>
    if l.all isDigitCh then Option.some (digitsVal l : Int) else Option.none

/-- pydantic integer coercion for a `conint` field. -/
def coerceInt : Jv → Option Int
  | Jv.int n => Option.some n
  | Jv.bool b => Option.some (if b then 1 else 0)
  | Jv.str s => strToInt s
  | _ => Option.none

/-- Look up a keyword argument. -/
def lookupField (fields : List (String × Jv)) (k : String) : Option Jv :=
  (fields.find? (fun p => p.1 = k)).map Prod.snd

/-- Validation of one `conint` field with a default and optional lower and
upper bounds, returning the field value or the pydantic error. -/
def validateConint (fields : List (String × Jv)) (fieldName : String) (deflt : Int)
    (lo : Option Int) (hi : Option Int) : Except PydErr Int :=
  match lookupField fields fieldName with
  | Option.none => Except.ok deflt
  | Option.some v =>
    match coerceInt v with
    | Option.none => Except.error ⟨[fieldName], "value is not a valid integer"⟩
    | Option.some n =>
      if lo.all (fun b => b ≤ n) then
        if hi.all (fun b => n ≤ b) then Except.ok n
        else Except.error
          ⟨[fieldName], "ensure this value is less than or equal to " ++ toString (hi.getD 0)⟩
      else Except.error
        ⟨[fieldName], "ensure this value is greater than or equal to " ++ toString (lo.getD 0)⟩

/-- The `PaginationQueryParameters` model: validation of the `page` and
`limit` fields with their bounds and defaults; unknown keys are ignored, and
errors of both fields are collected in field order. -/
def paginationValidate (fields : List (String × Jv)) : Except (List PydErr) ModelInst :=
  let pageRes := validateConint fields "page" 0 (Option.some 0) Option.none
  let limitRes := validateConint fields "limit" 100 (Option.some 1) (Option.some 1000)
  match pageRes, limitRes with
  | Except.ok p, Except.ok l =>
    Except.ok { fields := [("page", Jv.int p), ("limit", Jv.int l)],
                fieldsSet := (["page", "limit"].filter
                  (fun k => (keys fields).contains k)) }
  | Except.error e, Except.ok _ => Except.error [e]
  | Except.ok _, Except.error e => Except.error [e]
  | Except.error e1, Except.error e2 => Except.error [e1, e2]

/-- JSON-Schema description returned by `PaginationQueryParameters.schema()`;
its exact content is opaque to the claims. -/
def paginationSchemaDesc : Jv :=
  Jv.obj [("title", Jv.str "PaginationQueryParameters"), ("type", Jv.str "object")]

/-- `PaginationQueryParameters` as a pydantic model value. -/
def paginationModel : PydModel :=
  { schemaDesc := paginationSchemaDesc, validate := paginationValidate }

/-- `PaginationQueryParameters` as a `form_type` argument. -/
def paginationFormClass : FormClass :=
  { name := "PaginationQueryParameters", pydantic := Option.some paginationModel }

/-! ## pyocle/response.py -/

/-- `PaginationDetails` from pyocle/response.py. -/
structure PaginationDetails where
  page : Int
  limit : Int
deriving DecidableEq

/-- `MetaData` from pyocle/response.py, after its constructor normalized the
optional arguments; an absent `pagination_details` is the empty mapping. -/
structure MetaData where
  message : String
  error_details : List ErrorDetail
  pagination_details : Option PaginationDetails
  schemas : List (String × Jv)

/-- Constructor of `MetaData` (and the `metadata` factory, which forwards
its arguments unchanged): `error_details or []`, `pagination_details or {}`
and `schemas or {}`. -/
def metadata (message : String) (error_details : Option (List ErrorDetail))
    (pagination_details : Option PaginationDetails)
    (schemas : Option (List (String × Jv))) : MetaData :=
  { message := message
    error_details := error_details.getD []
    pagination_details := pagination_details
    schemas := schemas.getD [] }

/-- `ResponseBody` from pyocle/response.py. -/
structure ResponseBody where
  success : Bool
  meta : MetaData
  data : Option Jv

/-- A chalice `Response` as pyocle builds it: status code, structured body
and optional headers.  (The source serializes the body to JSON text through
jsonpickle and `__getstate__`; the embedding keeps the structured body, the
naming transformation being modelled separately by `getstate`.) -/
structure Response where
  status_code : Nat
  body : ResponseBody
  headers : Option (List (String × Jv))

/-- `ok_metadata` from pyocle/response.py. -/
def ok_metadata (pagination : Option PaginationDetails) : MetaData :=
  metadata "Request completed successfully" Option.none pagination Option.none

/-- `bad_metadata` from pyocle/response.py. -/
def bad_metadata (error_details : Option (List ErrorDetail))
    (schemas : Option (List (String × Jv))) : MetaData :=
  metadata "Given inputs were incorrect. Consult the below details to address the issue."
    (Option.some (error_details.getD [])) Option.none (Option.some (schemas.getD []))

/-- `not_found_metadata` from pyocle/response.py. -/
def not_found_metadata (identifier : String) : MetaData :=
  metadata ("Resource with id " ++ identifier ++ " does not exist")
    Option.none Option.none Option.none

/-- `internal_error_metadata` from pyocle/response.py. -/
def internal_error_metadata : MetaData :=
  metadata "Request failed due to internal server error"
    Option.none Option.none Option.none

/-- `response` from pyocle/response.py: `success = status_code < 400`. -/
def response (status_code : Nat) (meta : MetaData) (data : Option Jv)
    (headers : Option (List (String × Jv))) : Response :=
  { status_code := status_code
    body := { success := decide (status_code < 400), meta := meta, data := data }
    headers := headers }

/-- `ok` from pyocle/response.py. -/
def ok (data : Jv) (pagination : Option PaginationDetails) : Response :=
  response 200 (ok_metadata pagination) (Option.some data) Option.none

/-- `created` from pyocle/response.py. -/
def created (data : Jv) : Response :=
  response 201 (ok_metadata Option.none) (Option.some data) Option.none

/-- `bad` from pyocle/response.py. -/
def bad (error_details : Option (List ErrorDetail))
    (schemas : Option (List (String × Jv))) : Response :=
  response 400 (bad_metadata error_details schemas) Option.none Option.none

/-- `not_found` from pyocle/response.py. -/
def not_found (identifier : String) : Response :=
  response 404 (not_found_metadata identifier) Option.none Option.none

/-- `internal_error` from pyocle/response.py. -/
def internal_error : Response :=
  response 500 internal_error_metadata Option.none Option.none

/-- Python `'.'.join`. -/
def joinDot : List String → String
  | [] => ""
  | [x] => x
  | x :: rest => x ++ "." ++ joinDot rest

/-- `_build_error_details` from pyocle/response.py: one `ErrorDetail` per
pydantic error, with the dotted-joined location. -/
def build_error_details (errors : List PydErr) : List ErrorDetail :=
  errors.map (fun e => ⟨e.msg, joinDot e.loc⟩)

/-- One invocation of a wrapped handler either returns a response or raises
an exception. -/
inductive HandlerOutcome where
  | ret (r : Response)
  | raise (e : PyExn)

/-- `error_handler` from pyocle/response.py, as the map from the handler's
outcome to the wrapper's response: pass-through, then
`pyocle.service.ResourceNotFoundError`, then
`pyocle.form.FormValidationError`, then the catch-all (which logs and
returns the fixed internal-error response). -/
def error_handler : HandlerOutcome → Response
  | HandlerOutcome.ret r => r
  | HandlerOutcome.raise (PyExn.resourceNotFound e) => not_found e.identifier
  | HandlerOutcome.raise (PyExn.formValidation fve) =>
    bad (Option.some (build_error_details fve.errors)) fve.schemas
  | HandlerOutcome.raise _ => internal_error

/-- `error_handler` from pyocle/error.py.  Its `FormValidationError` branch
executes `response.bad(error_details=ex.error_details, schema=ex.schema)`,
but `bad` has parameters `error_details` and `schemas` and no parameter
named `schema`, so Python raises `TypeError` for the unexpected keyword
before `bad` runs; an exception raised inside an `except` clause is not
caught by the later `except Exception` clause of the same `try`, so the
`TypeError` escapes the wrapper.  The escape is modelled by the `Except`
error branch. -/
def error_py_error_handler : HandlerOutcome → Except PyExn Response
  | HandlerOutcome.ret r => Except.ok r
  | HandlerOutcome.raise (PyExn.resourceNotFoundE e) => Except.ok (not_found e.identifier)
  | HandlerOutcome.raise (PyExn.formValidationE _) =>
    Except.error (PyExn.typeError "bad() got an unexpected keyword argument: schema")
  | HandlerOutcome.raise _ => Except.ok internal_error

/-- The message of the `FormValidationError` carried by a failed
`resolve_form` outcome (empty when the outcome is not such an error);
used to state facts about raised default messages. -/
def raised_fve_message : Except PyExn ModelInst → String
  | Except.error (PyExn.formValidation fve) => fve.message
  | _ => ""

theorem char_le_iff_toNat (c d : Char) : (c ≤ d) ↔ (c.toNat ≤ d.toNat) := Iff.rfl

theorem toNat_ofNat_valid {n : Nat} (h : n.isValidChar) : (Char.ofNat n).toNat = n := by
  rw [Char.ofNat, dif_pos h]
  simp [Char.ofNatAux, Char.toNat, UInt32.toNat]

theorem toUpper_toNat (d : Char) :
    d.toUpper.toNat = if 97 ≤ d.toNat ∧ d.toNat ≤ 122 then d.toNat - 32 else d.toNat := by
  unfold Char.toUpper
  by_cases hc : 97 ≤ d.toNat ∧ d.toNat ≤ 122
  · rw [if_pos hc, if_pos hc]
    exact toNat_ofNat_valid (Or.inl (by omega))
  · rw [if_neg hc, if_neg hc]

theorem isAsciiLetter_toNat {d : Char} (h : isAsciiLetter d = true) :
    (97 ≤ d.toNat ∧ d.toNat ≤ 122) ∨ (65 ≤ d.toNat ∧ d.toNat ≤ 90) := by
  unfold isAsciiLetter at h
  simp only [Bool.or_eq_true, Bool.and_eq_true, decide_eq_true_eq] at h
  rcases h with ⟨h1, h2⟩ | ⟨h1, h2⟩
  · exact Or.inl ⟨(char_le_iff_toNat _ _).mp h1, (char_le_iff_toNat _ _).mp h2⟩
  · exact Or.inr ⟨(char_le_iff_toNat _ _).mp h1, (char_le_iff_toNat _ _).mp h2⟩

theorem toUpper_ne_us {d : Char} (h : isAsciiLetter d = true) : d.toUpper ≠ '_' := by
  intro hEq
  have h95 : d.toUpper.toNat = 95 := by rw [hEq]; rfl
  rw [toUpper_toNat] at h95
  rcases isAsciiLetter_toNat h with ⟨h1, h2⟩ | ⟨h1, h2⟩
  · rw [if_pos ⟨h1, h2⟩] at h95; omega
  · rw [if_neg (by omega)] at h95; omega

theorem camel_cons_ne {c : Char} (rest : List Char) (h : ¬ c = '_') :
    camel (c :: rest) = c :: camel rest := by
  conv_lhs => rw [camel.eq_def]
  simp [h]

theorem camel_us_letter {d : Char} (rest2 : List Char) (h : isAsciiLetter d = true) :
    camel ('_' :: d :: rest2) = d.toUpper :: camel rest2 := by
  conv_lhs => rw [camel.eq_def]
  simp [h]

theorem camel_us_nonletter {d : Char} (rest2 : List Char) (h : ¬ isAsciiLetter d = true) :
    camel ('_' :: d :: rest2) = '_' :: camel (d :: rest2) := by
  conv_lhs => rw [camel.eq_def]
  simp [h]

theorem sepOk_cons_ne {c : Char} (rest : List Char) (h : ¬ c = '_') :
    sepOk (c :: rest) = sepOk rest := by
  conv_lhs => rw [sepOk.eq_def]
  simp [h]

theorem sepOk_us_cons (d : Char) (rest2 : List Char) :
    sepOk ('_' :: d :: rest2) = (isAsciiLetter d && sepOk rest2) := by
  conv_lhs => rw [sepOk.eq_def]
  simp

theorem camel_of_no_us (l : List Char) (h : '_' ∉ l) : camel l = l := by
  induction l using camel.induct with
  | case1 => rfl
  | case2 => simp at h
  | case3 d rest2 hl ih => simp at h
  | case4 d rest2 hl ih => simp at h
  | case5 d rest2 hne ih =>
    simp only [List.mem_cons, not_or] at h
    rw [camel_cons_ne _ (fun he => h.1 he.symm), ih h.2]

theorem us_not_mem_camel (l : List Char) (h : sepOk l = true) : '_' ∉ camel l := by
  induction l using camel.induct with
  | case1 => exact (by decide : '_' ∉ camel [])
  | case2 => exact absurd h (by decide)
  | case3 d rest2 hl ih =>
    rw [sepOk_us_cons, Bool.and_eq_true] at h
    rw [camel_us_letter _ hl]
    simp only [List.mem_cons, not_or]
    exact ⟨fun he => toUpper_ne_us hl he.symm, ih h.2⟩
  | case4 d rest2 hl ih =>
    rw [sepOk_us_cons, Bool.and_eq_true] at h
    exact absurd h.1 hl
  | case5 d rest2 hne ih =>
    rw [sepOk_cons_ne _ hne] at h
    rw [camel_cons_ne _ hne]
    simp only [List.mem_cons, not_or]
    exact ⟨fun he => hne he.symm, ih h⟩

theorem contains_us_iff (l : List Char) : (l.contains '_' = true) ↔ '_' ∈ l := by
  simp [List.contains, List.elem_eq_mem]

theorem to_camel_case_of_no_us (s : String) (h : '_' ∉ s.data) : to_camel_case s = s := by
  unfold to_camel_case is_snake_case
  rw [if_neg (fun hc => h ((contains_us_iff s.data).mp hc))]

theorem us_not_mem_to_camel_case (s : String) (h : sepOk s.data = true) :
    '_' ∉ (to_camel_case s).data := by
  unfold to_camel_case is_snake_case
  by_cases hc : s.data.contains '_' = true
  · rw [if_pos hc]
    exact us_not_mem_camel _ h
  · rw [if_neg hc]
    exact fun hm => hc ((contains_us_iff s.data).mpr hm)

theorem keys_dict_insert (m : List (String × Jv)) (k : String) (v : Jv) :
    keys (dict_insert m k v) = if k ∈ keys m then keys m else keys m ++ [k] := by
  unfold dict_insert keys
  by_cases h : k ∈ m.map Prod.fst
  · rw [if_pos h, if_pos h, List.map_map]
    apply List.map_congr_left
    intro p _
    by_cases hp : p.1 = k
    · simp [hp]
    · simp [hp]
  · rw [if_neg h, if_neg h, List.map_append]
    rfl

theorem mem_keys_dict_insert_self (m : List (String × Jv)) (k : String) (v : Jv) :
    k ∈ keys (dict_insert m k v) := by
  rw [keys_dict_insert]
  by_cases h : k ∈ keys m
  · rw [if_pos h]; exact h
  · rw [if_neg h]; exact List.mem_append_right _ (List.mem_singleton.mpr rfl)

theorem mem_keys_dict_insert_of_mem (m : List (String × Jv)) (k kk : String) (v : Jv)
    (h : kk ∈ keys m) : kk ∈ keys (dict_insert m k v) := by
  rw [keys_dict_insert]
  by_cases hk : k ∈ keys m
  · rw [if_pos hk]; exact h
  · rw [if_neg hk]; exact List.mem_append_left _ h

theorem mem_keys_of_dict_insert (m : List (String × Jv)) (k kk : String) (v : Jv)
    (h : kk ∈ keys (dict_insert m k v)) : kk = k ∨ kk ∈ keys m := by
  rw [keys_dict_insert] at h
  by_cases hk : k ∈ keys m
  · rw [if_pos hk] at h; exact Or.inr h
  · rw [if_neg hk] at h
    rcases List.mem_append.mp h with h1 | h1
    · exact Or.inr h1
    · exact Or.inl (List.mem_singleton.mp h1)

theorem nodup_keys_dict_insert (m : List (String × Jv)) (k : String) (v : Jv)
    (h : (keys m).Nodup) : (keys (dict_insert m k v)).Nodup := by
  rw [keys_dict_insert]
  by_cases hk : k ∈ keys m
  · rw [if_pos hk]; exact h
  · rw [if_neg hk]
    rw [List.nodup_append]
    refine ⟨h, List.nodup_singleton k, ?_⟩
    intro a ha hb
    rw [List.mem_singleton] at hb
    exact hk (hb ▸ ha)

theorem dict_insert_of_not_mem (m : List (String × Jv)) (k : String) (v : Jv)
    (h : k ∉ keys m) : dict_insert m k v = m ++ [(k, v)] := by
  unfold dict_insert
  simp only [keys] at h
  rw [if_neg h]

theorem getstate_go_eq_append :
    ∀ (rest acc : List (String × Jv)),
      (∀ p ∈ rest, to_camel_case p.1 ∉ keys acc) →
      (rest.map (fun p => to_camel_case p.1)).Nodup →
      rest.foldl (fun acc p => dict_insert acc (to_camel_case p.1) p.2) acc
        = acc ++ rest.map (fun p => (to_camel_case p.1, p.2)) := by
  intro rest
  induction rest with
  | nil => intro acc _ _; simp
  | cons q rest ih =>
    intro acc hdisj hnd
    rw [List.foldl_cons]
    rw [dict_insert_of_not_mem _ _ _ (hdisj q (List.mem_cons_self q rest))]
    rw [List.map_cons, List.nodup_cons] at hnd
    have hstep := ih (acc ++ [(to_camel_case q.1, q.2)]) ?_ hnd.2
    · rw [hstep]
      simp
    · intro p hp
      rw [keys, List.map_append, List.mem_append]
      rintro (hin | hin)
      · exact hdisj p (List.mem_cons_of_mem q hp) hin
      · simp only [List.map_cons, List.map_nil, List.mem_singleton] at hin
        exact hnd.1 (hin ▸ List.mem_map_of_mem (fun p => to_camel_case p.1) hp)

theorem getstate_eq_map (m : List (String × Jv))
    (h : (m.map (fun p => to_camel_case p.1)).Nodup) :
    getstate m = m.map (fun p => (to_camel_case p.1, p.2)) := by
  unfold getstate
  rw [getstate_go_eq_append m [] (by intro p _ hin; simp [keys] at hin) h]
  rw [List.nil_append]

theorem nodup_keys_getstate_go :
    ∀ (rest acc : List (String × Jv)), (keys acc).Nodup →
      (keys (rest.foldl (fun acc p => dict_insert acc (to_camel_case p.1) p.2) acc)).Nodup := by
  intro rest
  induction rest with
  | nil => intro acc h; exact h
  | cons q rest ih =>
    intro acc h
    rw [List.foldl_cons]
    exact ih _ (nodup_keys_dict_insert _ _ _ h)

theorem nodup_keys_getstate (m : List (String × Jv)) : (keys (getstate m)).Nodup := by
  unfold getstate
  exact nodup_keys_getstate_go m [] (by simp [keys])

theorem mem_keys_getstate_go :
    ∀ (rest acc : List (String × Jv)) (kk : String),
      kk ∈ keys (rest.foldl (fun acc p => dict_insert acc (to_camel_case p.1) p.2) acc) →
      kk ∈ keys acc ∨ ∃ p ∈ rest, kk = to_camel_case p.1 := by
  intro rest
  induction rest with
  | nil => intro acc kk h; exact Or.inl h
  | cons q rest ih =>
    intro acc kk h
    rw [List.foldl_cons] at h
    rcases ih _ kk h with h1 | ⟨p, hp, he⟩
    · rcases mem_keys_of_dict_insert _ _ _ _ h1 with h2 | h2
      · exact Or.inr ⟨q, List.mem_cons_self q rest, h2⟩
      · exact Or.inl h2
    · exact Or.inr ⟨p, List.mem_cons_of_mem q hp, he⟩

theorem mem_keys_getstate (m : List (String × Jv)) (kk : String)
    (h : kk ∈ keys (getstate m)) : ∃ p ∈ m, kk = to_camel_case p.1 := by
  unfold getstate at h
  rcases mem_keys_getstate_go m [] kk h with h1 | h1
  · simp [keys] at h1
  · exact h1

theorem mem_keys_getstate_go_mono :
    ∀ (rest acc : List (String × Jv)) (kk : String), kk ∈ keys acc →
      kk ∈ keys (rest.foldl (fun acc p => dict_insert acc (to_camel_case p.1) p.2) acc) := by
  intro rest
  induction rest with
  | nil => intro acc kk h; exact h
  | cons q rest ih =>
    intro acc kk h
    rw [List.foldl_cons]
    exact ih _ kk (mem_keys_dict_insert_of_mem _ _ _ _ h)

theorem tc_mem_keys_getstate_go :
    ∀ (rest acc : List (String × Jv)) (p : String × Jv), p ∈ rest →
      to_camel_case p.1 ∈
        keys (rest.foldl (fun acc p => dict_insert acc (to_camel_case p.1) p.2) acc) := by
  intro rest
  induction rest with
  | nil => intro acc p hp; cases hp
  | cons q rest ih =>
    intro acc p hp
    rw [List.foldl_cons]
    rcases List.mem_cons.mp hp with h1 | h1
    · rw [h1]
      exact mem_keys_getstate_go_mono rest _ _ (mem_keys_dict_insert_self acc _ q.2)
    · exact ih _ p h1

theorem tc_mem_keys_getstate (m : List (String × Jv)) (p : String × Jv) (hp : p ∈ m) :
    to_camel_case p.1 ∈ keys (getstate m) := by
  unfold getstate
  exact tc_mem_keys_getstate_go m [] p hp

theorem us_not_mem_keys_getstate (m : List (String × Jv))
    (hsep : ∀ k ∈ keys m, sepOk k.data = true) :
    ∀ kk ∈ keys (getstate m), '_' ∉ kk.data := by
  intro kk hkk
  rcases mem_keys_getstate m kk hkk with ⟨p, hp, he⟩
  rw [he]
  exact us_not_mem_to_camel_case p.1 (hsep p.1 (List.mem_map_of_mem Prod.fst hp))

theorem getstate_idem (m : List (String × Jv))
    (hsep : ∀ k ∈ keys m, sepOk k.data = true) :
    getstate (getstate m) = getstate m := by
  have hkeys := us_not_mem_keys_getstate m hsep
  have htc : ∀ p ∈ getstate m, to_camel_case p.1 = p.1 := fun p hp =>
    to_camel_case_of_no_us p.1 (hkeys p.1 (List.mem_map_of_mem Prod.fst hp))
  have hnd : ((getstate m).map (fun p => to_camel_case p.1)).Nodup := by
    have heq : (getstate m).map (fun p => to_camel_case p.1) = keys (getstate m) :=
      List.map_congr_left htc
    rw [heq]
    exact nodup_keys_getstate m
  rw [getstate_eq_map _ hnd]
  have heq2 : (getstate m).map (fun p => (to_camel_case p.1, p.2)) = (getstate m).map id :=
    List.map_congr_left (fun p hp => by rw [htc p hp]; rfl)
  rw [heq2, List.map_id]

/-- Claim C6, amended.  For a mapping with at least one separator key, IF in
addition every underscore of every key is immediately followed by an ASCII
letter, the transformed mapping has no key containing a separator, keys
without a separator stay present unchanged, and the transformation is
idempotent.  (The claim as frozen fails: an underscore not followed by a
letter survives, see the counterexample.) -/
theorem getstate_camelization_amended (m : List (String × Jv))
    (hsome : ∃ k ∈ keys m, '_' ∈ k.data)
    (hsep : ∀ k ∈ keys m, sepOk k.data = true) :
    (∀ kk ∈ keys (getstate m), '_' ∉ kk.data)
    ∧ (∀ k ∈ keys m, '_' ∉ k.data → k ∈ keys (getstate m))
    ∧ getstate (getstate m) = getstate m := by
  refine ⟨us_not_mem_keys_getstate m hsep, ?_, getstate_idem m hsep⟩
  intro k hk hnus
  unfold keys at hk
  rcases List.mem_map.mp hk with ⟨p, hp, he⟩
  have hmem := tc_mem_keys_getstate m p hp
  rw [← he] at hnus
  rw [to_camel_case_of_no_us p.1 hnus] at hmem
  rw [← he]
  exact hmem

/-- Witness for C6 at the concrete mapping (first_name, plain). -/
theorem getstate_camelization_amended_witness :
    ((∃ k ∈ keys [("first_name", Jv.int 1), ("plain", Jv.int 2)], '_' ∈ k.data)
    ∧ (∀ k ∈ keys [("first_name", Jv.int 1), ("plain", Jv.int 2)], sepOk k.data = true))
    ∧ ((∀ kk ∈ keys (getstate [("first_name", Jv.int 1), ("plain", Jv.int 2)]), '_' ∉ kk.data)
    ∧ (∀ k ∈ keys [("first_name", Jv.int 1), ("plain", Jv.int 2)],
        '_' ∉ k.data → k ∈ keys (getstate [("first_name", Jv.int 1), ("plain", Jv.int 2)]))
    ∧ getstate (getstate [("first_name", Jv.int 1), ("plain", Jv.int 2)])
        = getstate [("first_name", Jv.int 1), ("plain", Jv.int 2)]) :=
  ⟨⟨by decide, by decide⟩,
    getstate_camelization_amended [("first_name", Jv.int 1), ("plain", Jv.int 2)]
      (by decide) (by decide)⟩

/-- Counterexample to claim C6 as frozen: the key a__b has a separator, yet
its transform a_B still contains one, and applying the transformation twice
differs from applying it once. -/
theorem getstate_separator_retained_counterexample :
    (∃ k ∈ keys [("a__b", Jv.int 0)], '_' ∈ k.data)
    ∧ (∃ kk ∈ keys (getstate [("a__b", Jv.int 0)]), '_' ∈ kk.data)
    ∧ getstate (getstate [("a__b", Jv.int 0)]) ≠ getstate [("a__b", Jv.int 0)] :=
  ⟨by decide, by decide, fun h => absurd (congrArg keys h) (by decide)⟩

/-- Claim C7, amended.  IF the transformed top-level keys are pairwise
distinct, `__getstate__` rewrites exactly the top-level keys: the result is
the pointwise key-transformed mapping, so every value (nested mappings and
their keys included) passes through unchanged and the key order equals the
input iteration order.  (The claim as frozen fails when two field names
collide after transformation, see the counterexample.) -/
theorem getstate_shallow_amended (m : List (String × Jv))
    (h : (m.map (fun p => to_camel_case p.1)).Nodup) :
    getstate m = m.map (fun p => (to_camel_case p.1, p.2))
    ∧ (getstate m).map Prod.snd = m.map Prod.snd
    ∧ keys (getstate m) = m.map (fun p => to_camel_case p.1) := by
  have h1 := getstate_eq_map m h
  refine ⟨h1, ?_, ?_⟩
  · rw [h1, List.map_map]
    rfl
  · rw [h1]
    unfold keys
    rw [List.map_map]
    rfl

/-- Witness for C7 at a mapping with a nested object value: the nested key
inner_key is left untouched. -/
theorem getstate_shallow_amended_witness :
    (([("first_name", Jv.obj [("inner_key", Jv.int 1)]), ("plain", Jv.str "x")].map
        (fun p => to_camel_case p.1)).Nodup)
    ∧ (getstate [("first_name", Jv.obj [("inner_key", Jv.int 1)]), ("plain", Jv.str "x")]
        = [("firstName", Jv.obj [("inner_key", Jv.int 1)]), ("plain", Jv.str "x")]) :=
  ⟨by decide,
    by
      have h := (getstate_shallow_amended
        [("first_name", Jv.obj [("inner_key", Jv.int 1)]), ("plain", Jv.str "x")]
        (by decide)).1
      rw [h]
      rfl⟩

/-- Counterexample to claim C7 as frozen: the keys a_b and aB collide after
transformation, so the first value is dropped and the output no longer has
all input values in input order. -/
theorem getstate_collision_counterexample :
    getstate [("a_b", Jv.int 1), ("aB", Jv.int 2)] = [("aB", Jv.int 2)]
    ∧ [("a_b", Jv.int 1), ("aB", Jv.int 2)].map Prod.snd = [Jv.int 1, Jv.int 2]
    ∧ (getstate [("a_b", Jv.int 1), ("aB", Jv.int 2)]).map Prod.snd = [Jv.int 2] :=
  ⟨rfl, rfl, rfl⟩


/-- Claim C1.  The response.py error handler yields exactly one outcome per
invocation by a strict priority chain: a normal return passes through
unchanged; `ResourceNotFoundError` gives the 404 response with message
`Resource with id {identifier} does not exist`; `FormValidationError` gives
the 400 response carrying the details built from the error and its schemas;
any other failure gives the fixed 500 response, a constant independent of
the failure text, so no failure text reaches the body. -/
theorem error_handler_priority_chain :
    ∀ (r : Response) (e : ResourceNotFoundError) (fve : FormValidationError) (t : String),
      error_handler (HandlerOutcome.ret r) = r
      ∧ error_handler (HandlerOutcome.raise (PyExn.resourceNotFound e)) = not_found e.identifier
      ∧ (not_found e.identifier).status_code = 404
      ∧ (not_found e.identifier).body.meta.message
          = "Resource with id " ++ e.identifier ++ " does not exist"
      ∧ error_handler (HandlerOutcome.raise (PyExn.formValidation fve))
          = bad (Option.some (build_error_details fve.errors)) fve.schemas
      ∧ (bad (Option.some (build_error_details fve.errors)) fve.schemas).status_code = 400
      ∧ (bad (Option.some (build_error_details fve.errors)) fve.schemas).body.meta.error_details
          = build_error_details fve.errors
      ∧ (bad (Option.some (build_error_details fve.errors)) fve.schemas).body.meta.schemas
          = fve.schemas.getD []
      ∧ error_handler (HandlerOutcome.raise (PyExn.valueError t)) = internal_error
      ∧ error_handler (HandlerOutcome.raise (PyExn.typeError t)) = internal_error
      ∧ error_handler (HandlerOutcome.raise (PyExn.other t)) = internal_error
      ∧ internal_error.status_code = 500
      ∧ internal_error.body.meta.message = "Request failed due to internal server error"
      ∧ internal_error.body.meta.error_details = [] :=
  fun r e fve t =>
    ⟨rfl, rfl, rfl, rfl, rfl, rfl, rfl, rfl, rfl, rfl, rfl, rfl, rfl, rfl⟩

/-- Claim C2.  The response.py wrapper maps every raised exception to a
well-formed error envelope (status 400, 404 or 500 with the matching
success flag), but the pyocle/error.py wrapper lets a `TypeError` escape
whenever the handler raises its `FormValidationError`, because the branch
calls `response.bad` with the nonexistent keyword `schema`; so the claim
that neither implementation lets an exception propagate fails on the code,
refuting it at this input. -/
theorem error_handler_wrappers_code_bug :
    (∀ e : PyExn, (error_handler (HandlerOutcome.raise e)).body.success
        = decide ((error_handler (HandlerOutcome.raise e)).status_code < 400)
      ∧ (error_handler (HandlerOutcome.raise e)).status_code ∈ [400, 404, 500])
    ∧ error_py_error_handler (HandlerOutcome.raise (PyExn.formValidationE
        (mkFormValidationErrorE Option.none Option.none Option.none)))
      = Except.error (PyExn.typeError "bad() got an unexpected keyword argument: schema") := by
  constructor
  · intro e
    cases e with
    | resourceNotFound e => exact ⟨rfl, show (404 : Nat) ∈ [400, 404, 500] from by decide⟩
    | formValidation fve => exact ⟨rfl, show (400 : Nat) ∈ [400, 404, 500] from by decide⟩
    | resourceNotFoundE e => exact ⟨rfl, show (500 : Nat) ∈ [400, 404, 500] from by decide⟩
    | formValidationE fve => exact ⟨rfl, show (500 : Nat) ∈ [400, 404, 500] from by decide⟩
    | valueError m => exact ⟨rfl, show (500 : Nat) ∈ [400, 404, 500] from by decide⟩
    | typeError m => exact ⟨rfl, show (500 : Nat) ∈ [400, 404, 500] from by decide⟩
    | other m => exact ⟨rfl, show (500 : Nat) ∈ [400, 404, 500] from by decide⟩
  · rfl

/-- Claim C3.  For every pydantic schema, `resolve_form` on None, the empty
string, a lone opening brace, and the non-mapping text 123 fails with the
parse-failure `FormValidationError`: exactly one error entry, located at
requestBody, with the fixed parse-failure message. -/
theorem resolve_form_invalid_inputs (ft : FormClass) (pm : PydModel)
    (h : ft.pydantic = Option.some pm) :
    resolve_form Rd.none ft
      = Except.error (PyExn.formValidation (parse_failure_fve ft.name pm))
    ∧ resolve_form (Rd.str "") ft
      = Except.error (PyExn.formValidation (parse_failure_fve ft.name pm))
    ∧ resolve_form (Rd.str "\x7b") ft
      = Except.error (PyExn.formValidation (parse_failure_fve ft.name pm))
    ∧ resolve_form (Rd.str "123") ft
      = Except.error (PyExn.formValidation (parse_failure_fve ft.name pm))
    ∧ (parse_failure_fve ft.name pm).errors.length = 1
    ∧ (parse_failure_fve ft.name pm).errors.map PydErr.loc = [["requestBody"]]
    ∧ (parse_failure_fve ft.name pm).message
        = "Form could not be validated due to given json not existing or being valid" := by
  obtain ⟨name, pyd⟩ := ft
  cases h
  exact ⟨rfl, rfl, rfl, rfl, rfl, rfl, rfl⟩

/-- Witness for C3 at the `PaginationQueryParameters` schema. -/
theorem resolve_form_invalid_inputs_witness :
    paginationFormClass.pydantic = Option.some paginationModel
    ∧ (resolve_form Rd.none paginationFormClass
        = Except.error (PyExn.formValidation
            (parse_failure_fve paginationFormClass.name paginationModel))
      ∧ resolve_form (Rd.str "") paginationFormClass
        = Except.error (PyExn.formValidation
            (parse_failure_fve paginationFormClass.name paginationModel))
      ∧ resolve_form (Rd.str "\x7b") paginationFormClass
        = Except.error (PyExn.formValidation
            (parse_failure_fve paginationFormClass.name paginationModel))
      ∧ resolve_form (Rd.str "123") paginationFormClass
        = Except.error (PyExn.formValidation
            (parse_failure_fve paginationFormClass.name paginationModel))
      ∧ (parse_failure_fve paginationFormClass.name paginationModel).errors.length = 1
      ∧ (parse_failure_fve paginationFormClass.name paginationModel).errors.map PydErr.loc
          = [["requestBody"]]
      ∧ (parse_failure_fve paginationFormClass.name paginationModel).message
          = "Form could not be validated due to given json not existing or being valid") :=
  ⟨rfl, resolve_form_invalid_inputs paginationFormClass paginationModel rfl⟩

/-- Claim C4.  `resolve_query_params` on absent parameters returns the empty
mapping without raising, and that mapping is equivalent to the schema
defaults: validating it under `PaginationQueryParameters` yields page 0 and
limit 100. -/
theorem resolve_query_params_none_defaults :
    resolve_query_params Option.none paginationFormClass = Except.ok []
    ∧ paginationValidate []
        = Except.ok ⟨[("page", Jv.int 0), ("limit", Jv.int 100)], []⟩ :=
  ⟨rfl, rfl⟩

/-- Claim C5.  `response` returns status code s with body success equal to
s < 400 and passes meta, data and headers through, and the builders ok,
created, bad, not_found and internal_error delegate to `response` with
status codes 200, 201, 400, 404 and 500. -/
theorem response_success_flag_and_delegation :
    ∀ (s : Nat) (m : MetaData) (d : Option Jv) (hd : Option (List (String × Jv)))
      (dd : Jv) (p : Option PaginationDetails) (ed : Option (List ErrorDetail))
      (sch : Option (List (String × Jv))) (i : String),
      (response s m d hd).status_code = s
      ∧ (response s m d hd).body.success = decide (s < 400)
      ∧ (response s m d hd).body.meta = m
      ∧ (response s m d hd).body.data = d
      ∧ (response s m d hd).headers = hd
      ∧ ok dd p = response 200 (ok_metadata p) (Option.some dd) Option.none
      ∧ created dd = response 201 (ok_metadata Option.none) (Option.some dd) Option.none
      ∧ bad ed sch = response 400 (bad_metadata ed sch) Option.none Option.none
      ∧ not_found i = response 404 (not_found_metadata i) Option.none Option.none
      ∧ internal_error = response 500 internal_error_metadata Option.none Option.none :=
  fun s m d hd dd p ed sch i =>
    ⟨rfl, rfl, rfl, rfl, rfl, rfl, rfl, rfl, rfl, rfl⟩

/-- Counterexample to claim C8 as frozen: `ResourceNotFoundError` built
from only an identifier carries `Resource with id 123 could not be found`,
not the claimed message, and the `FormValidationError` produced by schema
validation carries `Form was not validated successfully`, not the claimed
message. -/
theorem error_default_messages_counterexample :
    (mkResourceNotFoundError "123" Option.none).message
        = "Resource with id 123 could not be found"
    ∧ ¬ (mkResourceNotFoundError "123" Option.none).message
        = "Resource with id 123 does not exist"
    ∧ raised_fve_message (resolve_form (Rd.dict [("page", Jv.int (-1))]) paginationFormClass)
        = "Form was not validated successfully"
    ∧ ¬ raised_fve_message (resolve_form (Rd.dict [("page", Jv.int (-1))]) paginationFormClass)
        = "Given inputs were incorrect. Consult the below details to address the issue." :=
  ⟨rfl, by decide, rfl, by decide⟩

/-- Claim C8, amended.  The default messages actually carried are:
`Resource with id {identifier} could not be found` on the error, `Form was
not validated successfully` on a schema-validation failure, and the fixed
parse-failure message on a parse failure; the two texts the claim names
(`does not exist`, `Given inputs were incorrect...`) are the messages of
the 404 and 400 response metadata builders, not of the errors. -/
theorem error_default_messages_amended (i : String) (ft : FormClass) (pm : PydModel)
    (fields : List (String × Jv)) (errs : List PydErr)
    (h1 : ft.pydantic = Option.some pm) (h2 : pm.validate fields = Except.error errs) :
    (mkResourceNotFoundError i Option.none).message
        = "Resource with id " ++ i ++ " could not be found"
    ∧ resolve_form (Rd.dict fields) ft
        = Except.error (PyExn.formValidation (validation_fve ft.name pm errs))
    ∧ (validation_fve ft.name pm errs).message = "Form was not validated successfully"
    ∧ resolve_form (Rd.str "\x7b") ft
        = Except.error (PyExn.formValidation (parse_failure_fve ft.name pm))
    ∧ (parse_failure_fve ft.name pm).message
        = "Form could not be validated due to given json not existing or being valid"
    ∧ (not_found_metadata i).message = "Resource with id " ++ i ++ " does not exist"
    ∧ (bad_metadata Option.none Option.none).message
        = "Given inputs were incorrect. Consult the below details to address the issue." := by
  obtain ⟨name, pyd⟩ := ft
  cases h1
  refine ⟨rfl, ?_, rfl, rfl, rfl, rfl, rfl⟩
  have step : resolve_form (Rd.dict fields) ⟨name, Option.some pm⟩
      = (match pm.validate fields with
         | Except.ok inst => Except.ok inst
         | Except.error errs2 =>
           Except.error (PyExn.formValidation (validation_fve name pm errs2))) := rfl
  rw [step, h2]

/-- Witness for C8 at identifier 123 and a failing pagination validation. -/
theorem error_default_messages_amended_witness :
    ((paginationFormClass.pydantic = Option.some paginationModel)
    ∧ paginationModel.validate [("page", Jv.int (-1))]
        = Except.error [⟨["page"], "ensure this value is greater than or equal to 0"⟩])
    ∧ ((mkResourceNotFoundError "123" Option.none).message
        = "Resource with id " ++ "123" ++ " could not be found"
    ∧ resolve_form (Rd.dict [("page", Jv.int (-1))]) paginationFormClass
        = Except.error (PyExn.formValidation
            (validation_fve paginationFormClass.name paginationModel
              [⟨["page"], "ensure this value is greater than or equal to 0"⟩]))
    ∧ (validation_fve paginationFormClass.name paginationModel
        [⟨["page"], "ensure this value is greater than or equal to 0"⟩]).message
        = "Form was not validated successfully"
    ∧ resolve_form (Rd.str "\x7b") paginationFormClass
        = Except.error (PyExn.formValidation
            (parse_failure_fve paginationFormClass.name paginationModel))
    ∧ (parse_failure_fve paginationFormClass.name paginationModel).message
        = "Form could not be validated due to given json not existing or being valid"
    ∧ (not_found_metadata "123").message = "Resource with id " ++ "123" ++ " does not exist"
    ∧ (bad_metadata Option.none Option.none).message
        = "Given inputs were incorrect. Consult the below details to address the issue.") :=
  ⟨⟨rfl, rfl⟩,
    error_default_messages_amended "123" paginationFormClass paginationModel
      [("page", Jv.int (-1))]
      [⟨["page"], "ensure this value is greater than or equal to 0"⟩] rfl rfl⟩

/-- Claim C9.  `PaginationQueryParameters` rejects page -1 with limit 10,
rejects page 0 with limit 1001, accepts page 500 with limit 1000, and
defaults to page 0 with limit 100. -/
theorem pagination_query_parameters_bounds :
    paginationValidate [("page", Jv.int (-1)), ("limit", Jv.int 10)]
      = Except.error [⟨["page"], "ensure this value is greater than or equal to 0"⟩]
    ∧ paginationValidate [("page", Jv.int 0), ("limit", Jv.int 1001)]
      = Except.error [⟨["limit"], "ensure this value is less than or equal to 1000"⟩]
    ∧ paginationValidate [("page", Jv.int 500), ("limit", Jv.int 1000)]
      = Except.ok ⟨[("page", Jv.int 500), ("limit", Jv.int 1000)], ["page", "limit"]⟩
    ∧ paginationValidate []
      = Except.ok ⟨[("page", Jv.int 0), ("limit", Jv.int 100)], []⟩ :=
  ⟨rfl, rfl, rfl, rfl⟩

/-- Claim C10.  For every input and every form type that is not a pydantic
model subclass, `resolve_form` raises `ValueError` (not
`FormValidationError`) before any decoding or validation, and the error
handler surfaces such a failure as the 500 internal error. -/
theorem resolve_form_unsupported_type (data : Rd) (ft : FormClass)
    (h : ft.pydantic = Option.none) :
    resolve_form data ft = Except.error (PyExn.valueError
      ("Unsupported form type: " ++ ft.name ++ ". Type must be subclass of pydantic.BaseModel"))
    ∧ (∀ msg, error_handler (HandlerOutcome.raise (PyExn.valueError msg)) = internal_error)
    ∧ internal_error.status_code = 500 := by
  obtain ⟨name, pyd⟩ := ft
  cases h
  exact ⟨rfl, fun msg => rfl, rfl⟩

/-- Witness for C10 at a non-pydantic class named InvalidForm. -/
theorem resolve_form_unsupported_type_witness :
    (FormClass.mk "InvalidForm" Option.none).pydantic = Option.none
    ∧ (resolve_form (Rd.dict []) (FormClass.mk "InvalidForm" Option.none)
        = Except.error (PyExn.valueError
          ("Unsupported form type: " ++ (FormClass.mk "InvalidForm" Option.none).name
            ++ ". Type must be subclass of pydantic.BaseModel"))
      ∧ (∀ msg, error_handler (HandlerOutcome.raise (PyExn.valueError msg)) = internal_error)
      ∧ internal_error.status_code = 500) :=
  ⟨rfl, resolve_form_unsupported_type (Rd.dict []) (FormClass.mk "InvalidForm" Option.none) rfl⟩
